import Mathlib

/-!
Verification of the FRED data-fetch/transform/aggregate pipeline of the
Houston Housing Dashboard (file `lib/fred-api.ts`).

JavaScript numbers are modelled exactly: a `JSNum` is either `nan` or a
rational. The arithmetic the pipeline performs (subtraction, a guarded
division, multiplication by 100, comparisons, rounding to one decimal) is
exact over the rationals, so the rational model coincides with the IEEE
semantics on all inputs whose intermediate values are representable; the
formatting helpers (`toFixed(1)`, `toLocaleString`, `Math.round`) follow the
ECMAScript algorithms.

JavaScript date handling (`new Date("YYYY-MM-DD")`, `getMonth`, `getFullYear`,
`setFullYear`, `getTime`) is modelled with explicit epoch-day arithmetic and a
timezone-offset parameter `tzOffsetMin` (minutes east of UTC), because
`getMonth`/`getFullYear` read the server's local clock while date-only ISO
strings parse as UTC midnight. The request clock (`new Date()`) is passed in
as a `RequestTime`: the local civil date plus milliseconds of day.
-/

set_option maxHeartbeats 2000000

attribute [local semireducible] Rat.add Rat.mul Rat.sub Rat.inv Rat.ofScientific

/-- A JavaScript number: NaN or an exact rational. -/
inductive JSNum where
  | nan : JSNum
  | num (q : ℚ) : JSNum
deriving DecidableEq

/-- JS subtraction: NaN propagates. -/
def jsSub : JSNum → JSNum → JSNum
  | JSNum.num a, JSNum.num b => JSNum.num (a - b)
  | _, _ => JSNum.nan

/-- JS multiplication: NaN propagates. -/
def jsMul : JSNum → JSNum → JSNum
  | JSNum.num a, JSNum.num b => JSNum.num (a * b)
  | _, _ => JSNum.nan

/-- JS division: NaN propagates. A zero divisor would give ±Infinity in JS;
every division in this code base is guarded by an `oldValue === 0` check, so
that case is unreachable and mapped to `nan` here. -/
def jsDiv : JSNum → JSNum → JSNum
  | JSNum.num a, JSNum.num b => if b = 0 then JSNum.nan else JSNum.num (a / b)
  | _, _ => JSNum.nan

/-- JS `x >= y`: false whenever either side is NaN. -/
def jsGe : JSNum → JSNum → Bool
  | JSNum.num a, JSNum.num b => decide (b ≤ a)
  | _, _ => false

/-- JS `x < y`: false whenever either side is NaN. -/
def jsLt : JSNum → JSNum → Bool
  | JSNum.num a, JSNum.num b => decide (a < b)
  | _, _ => false

/-- JS truncation toward zero (`ToIntegerOrInfinity` on a finite value). -/
def jsTruncQ (q : ℚ) : Int := if 0 ≤ q then ⌊q⌋ else -⌊-q⌋

/-- JS `Math.round`: floor of x + 1/2 (halves round toward +∞). -/
def jsMathRound : JSNum → JSNum
  | JSNum.nan => JSNum.nan
  | JSNum.num q => JSNum.num ((⌊q + 1 / 2⌋ : Int) : ℚ)

/-- The digits of a natural number, least significant first; structural fuel
recursion (the fuel n covers every number with at most n digits). -/
def natDigitsRevAux : ℕ → ℕ → List ℕ
  | 0, _ => []
  | fuel + 1, n => if n = 0 then [] else n % 10 :: natDigitsRevAux fuel (n / 10)

/-- The digits of a natural number, least significant first. -/
def natDigitsRev (n : ℕ) : List ℕ := natDigitsRevAux n n

/-- Decimal rendering of a natural number (the digit string JS produces). -/
def natRepr (n : ℕ) : String :=
  if n = 0 then "0"
  else String.mk (((natDigitsRev n).reverse).map (fun d => Char.ofNat (48 + d)))

/-- Decimal rendering of an integer. -/
def intRepr (i : Int) : String :=
  (if i < 0 then "-" else "") ++ natRepr i.natAbs

/-- One-decimal fixed rendering of a non-negative rational: the ECMAScript
`toFixed(1)` algorithm picks the integer n closest to 10·x, larger n on ties. -/
def fixedOneDecimal (x : ℚ) : String :=
  let n : ℕ := (⌊10 * x + 1 / 2⌋).toNat
  natRepr (n / 10) ++ "." ++ natRepr (n % 10)

/-- ECMAScript `Number.prototype.toFixed(1)`: a negative receiver is negated
first and a "-" is prefixed, so e.g. -0.04 renders as "-0.0". -/
def jsToFixed1 (x : ℚ) : String :=
  if x < 0 then "-" ++ fixedOneDecimal (-x) else fixedOneDecimal x

/-- `toFixed(1)` on a JS number; NaN renders as "NaN". -/
def JSNum.toFixed1 : JSNum → String
  | JSNum.nan => "NaN"
  | JSNum.num q => jsToFixed1 q

/-- Numeric value of a digit list, most significant first. -/
def digitsToNat (ds : List Char) : ℕ :=
  ds.foldl (fun a c => 10 * a + (c.toNat - 48)) 0

/-- JS `parseFloat` on the decimal fragment this code base produces and
consumes: an optional sign, integer digits, an optional fraction, and the
longest-prefix rule (so "+5.2%" parses as 5.2 and stops at '%'). NaN when no
digits are found. Exponents, `Infinity` and leading whitespace never occur in
FRED payloads or in the strings this pipeline builds, and are not modelled. -/
def jsParseFloat (s : String) : JSNum :=
  let signed : ℚ × List Char :=
    match s.data with
    | '-' :: r => (-1, r)
    | '+' :: r => (1, r)
    | r => (1, r)
  let intPart : List Char × List Char := signed.2.span Char.isDigit
  let fracPart : List Char :=
    (match intPart.2 with
      | '.' :: r => r
      | _ => []).takeWhile Char.isDigit
  if intPart.1 = [] ∧ fracPart = [] then JSNum.nan
  else JSNum.num (signed.1 *
    ((digitsToNat intPart.1 : ℚ) + (digitsToNat fracPart : ℚ) / (10 : ℚ) ^ fracPart.length))

/-- Days since the Unix epoch (1970-01-01) of a proleptic Gregorian civil date
(era-based algorithm; `/` and `%` on `Int` are Euclidean here and agree with
floor division for the positive divisors used). Models ECMAScript `MakeDay`;
a day value past the month's end rolls into the next month, as `MakeDay` does. -/
def daysFromCivil (y m d : Int) : Int :=
  let yy : Int := y - (if m ≤ 2 then 1 else 0)
  let era : Int := yy / 400
  let yoe : Int := yy - era * 400
  let mp : Int := (m + 9) % 12
  let doy : Int := (153 * mp + 2) / 5 + d - 1
  let doe : Int := 365 * yoe + yoe / 4 - yoe / 100 + doy
  era * 146097 + doe - 719468

/-- Era index of a shifted day count. -/
def eraOfZ (za : Int) : Int := za / 146097

/-- Day of era of a shifted day count. -/
def doeOfZ (za : Int) : Int := za - eraOfZ za * 146097

/-- Year of era recovered from a day of era. -/
def yoeOfD (doe : Int) : Int := (doe - doe / 1460 + doe / 36524 - doe / 146096) / 365

/-- Day of year recovered from a day of era. -/
def doyOfD (doe : Int) : Int := doe - (365 * yoeOfD doe + yoeOfD doe / 4 - yoeOfD doe / 100)

/-- Shifted month (March = 0) recovered from a day of year. -/
def mpOfDoy (doy : Int) : Int := (5 * doy + 2) / 153

/-- Civil date of a shifted day count `za = z + 719468`. -/
def civilOfZa (za : Int) : Int × Int × Int :=
  let doe : Int := doeOfZ za
  let yoe : Int := yoeOfD doe
  let doy : Int := doyOfD doe
  let mp : Int := mpOfDoy doy
  let d : Int := doy - (153 * mp + 2) / 5 + 1
  let m : Int := if mp < 10 then mp + 3 else mp - 9
  (yoe + eraOfZ za * 400 + (if m ≤ 2 then 1 else 0), m, d)

/-- Civil date (year, month, day) of a day count since the Unix epoch; models
ECMAScript `YearFromTime` / `MonthFromTime` / `DateFromTime`. -/
def civilFromDays (z : Int) : Int × Int × Int := civilOfZa (z + 719468)

/-- Proleptic Gregorian leap year. -/
def isLeapYear (y : Int) : Prop :=
  (y % 4 = 0 ∧ y % 100 ≠ 0) ∨ y % 400 = 0

instance (y : Int) : Decidable (isLeapYear y) := by unfold isLeapYear; infer_instance

/-- Length of a calendar month. -/
def daysInMonth (y m : Int) : Int :=
  if m = 2 then (if isLeapYear y then 29 else 28)
  else if m = 4 ∨ m = 6 ∨ m = 9 ∨ m = 11 then 30
  else 31

theorem yoeRecover (yoe doy : Int)
    (h1 : 0 ≤ yoe) (h2 : yoe ≤ 399) (h3 : 0 ≤ doy)
    (h4 : doy ≤ 364 ∨ (doy = 365 ∧ ((yoe % 4 = 3 ∧ yoe % 100 ≠ 99) ∨ yoe = 399))) :
    ((365 * yoe + yoe / 4 - yoe / 100 + doy) -
      (365 * yoe + yoe / 4 - yoe / 100 + doy) / 1460 +
      (365 * yoe + yoe / 4 - yoe / 100 + doy) / 36524 -
      (365 * yoe + yoe / 4 - yoe / 100 + doy) / 146096) / 365 = yoe := by
  interval_cases yoe <;> omega

/-- Recovering era, year of era and day of year from a shifted day count. -/
theorem civilOfZa_parts (era r doy za : Int)
    (hza : za = 146097 * era + (365 * r + r / 4 - r / 100 + doy))
    (hr0 : 0 ≤ r) (hr1 : r ≤ 399) (hdoy : 0 ≤ doy)
    (h4 : doy ≤ 364 ∨ (doy = 365 ∧ ((r % 4 = 3 ∧ r % 100 ≠ 99) ∨ r = 399))) :
    eraOfZ za = era ∧ doeOfZ za = 365 * r + r / 4 - r / 100 + doy ∧
      yoeOfD (doeOfZ za) = r ∧ doyOfD (doeOfZ za) = doy := by
  have e1 : eraOfZ za = era := by unfold eraOfZ; omega
  have e2 : doeOfZ za = 365 * r + r / 4 - r / 100 + doy := by
    unfold doeOfZ; rw [e1]; omega
  have hkey := yoeRecover r doy hr0 hr1 hdoy h4
  have e3 : yoeOfD (doeOfZ za) = r := by rw [e2]; unfold yoeOfD; omega
  have e4 : doyOfD (doeOfZ za) = doy := by unfold doyOfD; rw [e3, e2]; omega
  exact ⟨e1, e2, e3, e4⟩

/-- Recovering the shifted month from a day of year. -/
theorem mpRecover (mp d : Int) (h1 : 0 ≤ mp) (h2 : mp ≤ 11) (h3 : 1 ≤ d)
    (h4 : (153 * mp + 2) / 5 + d - 1 ≤ 365)
    (h5 : (153 * mp + 2) / 5 + d - 1 < (153 * (mp + 1) + 2) / 5) :
    mpOfDoy ((153 * mp + 2) / 5 + d - 1) = mp := by
  unfold mpOfDoy
  interval_cases mp <;> omega

/-- Within a shifted (March-based) year, a valid day of month stays below the
next month's first day-of-year offset. -/
theorem doyUpper (mp d : Int) (h0 : 0 ≤ mp) (h1 : mp ≤ 11) (hd : 1 ≤ d)
    (h31 : d ≤ 31)
    (h30 : mp = 1 ∨ mp = 3 ∨ mp = 6 ∨ mp = 8 → d ≤ 30)
    (hfeb : mp = 11 → d ≤ 29) :
    (153 * mp + 2) / 5 + d - 1 < (153 * (mp + 1) + 2) / 5 := by
  interval_cases mp <;> omega

/-- Decomposing a valid civil date's epoch-day count recovers the date. -/
theorem civil_roundtrip (y m d : Int) (hm1 : 1 ≤ m) (hm2 : m ≤ 12)
    (hd1 : 1 ≤ d) (hd2 : d ≤ daysInMonth y m) :
    civilFromDays (daysFromCivil y m d) = (y, m, d) := by
  unfold daysInMonth isLeapYear at hd2
  show civilOfZa (daysFromCivil y m d + 719468) = (y, m, d)
  have hza : daysFromCivil y m d + 719468 =
      146097 * ((y - (if m ≤ 2 then 1 else 0)) / 400) +
        (365 * ((y - (if m ≤ 2 then 1 else 0)) % 400) +
          ((y - (if m ≤ 2 then 1 else 0)) % 400) / 4 -
          ((y - (if m ≤ 2 then 1 else 0)) % 400) / 100 +
          ((153 * ((m + 9) % 12) + 2) / 5 + d - 1)) := by
    simp only [daysFromCivil]
    omega
  have h4 : (153 * ((m + 9) % 12) + 2) / 5 + d - 1 ≤ 364 ∨
      ((153 * ((m + 9) % 12) + 2) / 5 + d - 1 = 365 ∧
        (((y - (if m ≤ 2 then 1 else 0)) % 400 % 4 = 3 ∧
          (y - (if m ≤ 2 then 1 else 0)) % 400 % 100 ≠ 99) ∨
          (y - (if m ≤ 2 then 1 else 0)) % 400 = 399)) := by
    split_ifs at hd2 <;> omega
  obtain ⟨e1, e2, e3, e4⟩ := civilOfZa_parts ((y - (if m ≤ 2 then 1 else 0)) / 400)
    ((y - (if m ≤ 2 then 1 else 0)) % 400) ((153 * ((m + 9) % 12) + 2) / 5 + d - 1)
    (daysFromCivil y m d + 719468) hza (by omega) (by omega) (by omega) h4
  have h5 : (153 * ((m + 9) % 12) + 2) / 5 + d - 1 < (153 * ((m + 9) % 12 + 1) + 2) / 5 :=
    doyUpper ((m + 9) % 12) d (by omega) (by omega) hd1
      (by split_ifs at hd2 <;> omega)
      (fun h => by split_ifs at hd2 <;> omega)
      (fun h => by split_ifs at hd2 <;> omega)
  have emp : mpOfDoy ((153 * ((m + 9) % 12) + 2) / 5 + d - 1) = (m + 9) % 12 :=
    mpRecover ((m + 9) % 12) d (by omega) (by omega) hd1 (by omega) h5
  simp only [civilOfZa, e1, e3, e4, emp]
  simp only [Prod.mk.injEq]
  clear hza h4 e1 e2 e3 e4 h5 emp hd2
  refine ⟨?_, ?_, ?_⟩ <;> omega

/-!
Data model (`lib/types.ts`) and the raw FRED response shape (`lib/fred-api.ts`).
The optional, never-assigned `label` field of `ChartDataPoint` is omitted.
-/

/-- A raw FRED observation: an ISO date string and a string-encoded value,
where "." or "" mark missing data. -/
structure FREDObservation where
  date : String
  value : String
deriving DecidableEq

/-- The FRED response body used by this pipeline. -/
structure FREDResponse where
  observations : List FREDObservation
deriving DecidableEq

/-- A display-ready chart point. -/
structure ChartDataPoint where
  date : String
  value : JSNum
deriving DecidableEq

/-- The qualitative change classification of `HousingMetric.changeType`. -/
inductive ChangeType where
  | positive : ChangeType
  | negative : ChangeType
  | neutral : ChangeType
deriving DecidableEq

/-- A derived summary metric. -/
structure HousingMetric where
  id : String
  title : String
  value : String
  change : String
  changeType : ChangeType
  description : String
deriving DecidableEq

/-- The aggregate payload. -/
structure HousingData where
  metrics : List HousingMetric
  housePriceIndex : List ChartDataPoint
  activeListings : List ChartDataPoint
  buildingPermits : List ChartDataPoint
  rentCPI : List ChartDataPoint
  unemploymentRate : List ChartDataPoint
deriving DecidableEq

/-- The request clock `new Date()`, decomposed into the server's local civil
date and milliseconds of day. `getFullYear`/`setFullYear` act on the civil
year; `getTime` converts back to UTC milliseconds using the timezone offset. -/
structure RequestTime where
  year : Int
  month : Int
  day : Int
  msOfDay : Int
deriving DecidableEq

/-- The month-name table of `transformFREDData`. -/
def monthNames : List String :=
  ["Jan", "Feb", "Mar", "Apr", "May", "Jun", "Jul", "Aug", "Sep", "Oct", "Nov", "Dec"]

/-- Parse an ISO "YYYY-MM-DD" date string the way `new Date(s)` validates it:
exactly four year digits, a month 01-12 and a day within the month; anything
else is an Invalid Date, modelled as `none`. -/
def parseISODate (s : String) : Option (Int × Int × Int) :=
  match s.data with
  | [y1, y2, y3, y4, '-', m1, m2, '-', d1, d2] =>
    if y1.isDigit ∧ y2.isDigit ∧ y3.isDigit ∧ y4.isDigit ∧
        m1.isDigit ∧ m2.isDigit ∧ d1.isDigit ∧ d2.isDigit then
      let y : Int := 1000 * (y1.toNat - 48) + 100 * (y2.toNat - 48) +
        10 * (y3.toNat - 48) + (y4.toNat - 48)
      let m : Int := 10 * (m1.toNat - 48) + (m2.toNat - 48)
      let d : Int := 10 * (d1.toNat - 48) + (d2.toNat - 48)
      if 1 ≤ m ∧ m ≤ 12 ∧ 1 ≤ d ∧ d ≤ daysInMonth y m then some (y, m, d) else none
    else none
  | _ => none

/-- The "Mon YYYY" label `transformFREDData` builds: `new Date(obs.date)` is
UTC midnight of the written date, but `getMonth`/`getFullYear` read it in the
server's local timezone (`tzOffsetMin` minutes east of UTC). An unparseable
date gives `months[NaN]` = undefined and `${undefined} ${NaN}`. -/
def jsMonthYearLabel (tzOffsetMin : Int) (dateStr : String) : String :=
  match parseISODate dateStr with
  | none => "undefined NaN"
  | some (y, m, d) =>
    let utcMs : Int := daysFromCivil y m d * 86400000
    let localDays : Int := (utcMs + tzOffsetMin * 60000) / 86400000
    match civilFromDays localDays with
    | (yy, mm, _) => monthNames.getD (mm - 1).toNat "undefined" ++ " " ++ intRepr yy

/-- JS `Array.prototype.slice(relStart)` with one argument: the start index is
truncated toward zero, clamped, and counts from the end when negative. -/
def jsSliceFrom (l : List FREDObservation) (relStart : ℚ) : List FREDObservation :=
  let k : Int := jsTruncQ relStart
  if k < 0 then l.drop ((l.length + k).toNat) else l.drop k.toNat

/-!
The pipeline itself (`lib/fred-api.ts`). Each definition mirrors one source
function; JS truthiness tests (`if (!x)`, `x ? a : b`, `limit ?`) are written
out as matches covering null/undefined, NaN and 0.
-/

/-- The error taxonomy of `fetchFREDSeries`: the thrown `Error` objects are
distinguishable by construction (missing key, non-ok HTTP status, transport
failure rethrown from `fetch`). -/
inductive FetchError where
  | configError (message : String) : FetchError
  | upstreamError (status : Nat) (statusText : String) : FetchError
  | transportError (message : String) : FetchError
deriving DecidableEq

/-- The outcome of the underlying `fetch` call: a transport failure, or an
HTTP reply with its `ok` flag, status and parsed JSON body. -/
structure HttpReply where
  ok : Bool
  status : Nat
  statusText : String
  body : FREDResponse
deriving DecidableEq

/-- `fetchFREDSeries(seriesId, limit?)`. The environment credential is the
`apiKey` argument (`process.env.FRED_API_KEY`; `none` = unset, and the empty
string is also falsy). The network is the `net` argument; `seriesId` and
`limit` only shape the request URL (query parameters and the optional
observation_start/observation_end window), which no claim depends on. -/
def fetchFREDSeries (apiKey : Option String) (seriesId : String) (limit : Option JSNum)
    (net : Except String HttpReply) : Except FetchError FREDResponse :=
  match apiKey with
  | none => Except.error (FetchError.configError "FRED_API_KEY environment variable is not set")
  | some key =>
    if key = "" then
      Except.error (FetchError.configError "FRED_API_KEY environment variable is not set")
    else
      match net with
      | Except.error e => Except.error (FetchError.transportError e)
      | Except.ok reply =>
        if reply.ok then Except.ok reply.body
        else Except.error (FetchError.upstreamError reply.status reply.statusText)

/-- `transformFREDData(observations, limit?)`: filter out missing values,
keep the last `limit` points when `limit` is truthy (`slice(-limit)`), and map
each observation to a labelled chart point. -/
def transformFREDData (tzOffsetMin : Int) (observations : List FREDObservation)
    (limit : Option JSNum) : List ChartDataPoint :=
  let validObservations := observations.filter (fun obs => obs.value != "." && obs.value != "")
  let dataToTransform :=
    match limit with
    | some (JSNum.num q) => if q = 0 then validObservations else jsSliceFrom validObservations (-q)
    | _ => validObservations
  dataToTransform.map (fun obs =>
    { date := jsMonthYearLabel tzOffsetMin obs.date, value := jsParseFloat obs.value })

/-- `calculatePercentageChange(oldValue, newValue)`. -/
def calculatePercentageChange (oldValue newValue : JSNum) : String :=
  if oldValue = JSNum.num 0 then "+0.0%"
  else
    let change := jsMul (jsDiv (jsSub newValue oldValue) oldValue) (JSNum.num 100)
    let sign := if jsGe change (JSNum.num 0) then "+" else ""
    sign ++ change.toFixed1 ++ "%"

/-- Digit grouping on a reversed digit list: a comma after every three digits
that are followed by more digits. -/
def groupRev : List Char → List Char
  | a :: b :: c :: e :: rest => a :: b :: c :: ',' :: groupRev (e :: rest)
  | l => l

/-- `formatNumber(value)` = `value.toLocaleString('en-US')`. Every call site
passes a `Math.round` result, so only integers (and the unreachable NaN) are
modelled; `toLocaleString` groups the digits with commas. -/
def formatNumber (value : JSNum) : String :=
  match value with
  | JSNum.nan => "NaN"
  | JSNum.num q =>
    let n : Int := jsTruncQ q
    (if n < 0 then "-" else "") ++ String.mk (groupRev (natRepr n.natAbs).data.reverse).reverse

/-- The backward scan of `getLatestValue`, expressed on the reversed list:
return the first non-missing value from the end. -/
def lastValidValue : List FREDObservation → Option JSNum
  | [] => none
  | obs :: rest =>
    if obs.value != "." && obs.value != "" then some (jsParseFloat obs.value)
    else lastValidValue rest

/-- `getLatestValue(observations)`: the source loops `i` from the last index
down to 0 and returns `parseFloat` of the first non-missing value, else null. -/
def getLatestValue (observations : List FREDObservation) : Option JSNum :=
  lastValidValue observations.reverse

/-- The `for (const obs of observations)` loop of `getYearOverYearChange`:
the first non-missing observation whose parsed date lies strictly within
45 days (in milliseconds) of the target instant; the loop breaks there. An
invalid date makes `Math.abs(NaN - t) < ...` false, so the loop continues. -/
def findYearAgo : List FREDObservation → Int → Option JSNum
  | [], _ => none
  | obs :: rest, targetMs =>
    if obs.value != "." && obs.value != "" then
      match parseISODate obs.date with
      | some (y, m, d) =>
        if (daysFromCivil y m d * 86400000 - targetMs).natAbs < 3888000000 then
          some (jsParseFloat obs.value)
        else findYearAgo rest targetMs
      | none => findYearAgo rest targetMs
    else findYearAgo rest targetMs

/-- `getYearOverYearChange(observations)`. The source computes
`targetDate = new Date(); targetDate.setFullYear(targetDate.getFullYear() - 1)`
— the request's local civil clock with the year decremented (a Feb 29 clock
rolls to Mar 1 through MakeDay, matching JS) — and compares `getTime()`
values. `if (!latest)` and `if (!yearAgoValue)` are truthiness checks: null,
NaN and 0 all short-circuit to "+0.0%". -/
def getYearOverYearChange (tzOffsetMin : Int) (now : RequestTime)
    (observations : List FREDObservation) : String :=
  match getLatestValue observations with
  | some (JSNum.num latest) =>
    if latest = 0 then "+0.0%"
    else
      let targetMs : Int :=
        daysFromCivil (now.year - 1) now.month now.day * 86400000 + now.msOfDay -
          tzOffsetMin * 60000
      match findYearAgo observations targetMs with
      | some (JSNum.num yearAgoValue) =>
        if yearAgoValue = 0 then "+0.0%"
        else calculatePercentageChange (JSNum.num yearAgoValue) (JSNum.num latest)
      | _ => "+0.0%"
  | _ => "+0.0%"

/-- `getMonthOverMonthChange(observations)`: the last two valid observations
(`validObs[len-1]`, `validObs[len-2]`), "+0.0%" when fewer than two exist. -/
def getMonthOverMonthChange (observations : List FREDObservation) : String :=
  let validObs := observations.filter (fun obs => obs.value != "." && obs.value != "")
  match validObs.reverse with
  | latest :: previous :: _ =>
    calculatePercentageChange (jsParseFloat previous.value) (jsParseFloat latest.value)
  | _ => "+0.0%"

/-- `getChangeType(change, metricId)`: parse the change string; exactly zero is
neutral; the unemployment role inverts the sign-to-quality mapping; the
inventory branch and the default branch both map a positive change to
"positive". A NaN parse falls through every comparison to "negative". -/
def getChangeType (change : String) (metricId : String) : ChangeType :=
  let value := jsParseFloat change
  if value = JSNum.num 0 then ChangeType.neutral
  else if metricId = "unemployment" then
    if jsLt value (JSNum.num 0) then ChangeType.positive else ChangeType.negative
  else if metricId = "inventory" then
    if jsLt (JSNum.num 0) value then ChangeType.positive else ChangeType.negative
  else if jsLt (JSNum.num 0) value then ChangeType.positive else ChangeType.negative

/-- The per-series outcome of `Promise.allSettled`:
`r.status === 'fulfilled' ? r.value.observations : []`. `none` is a rejected
fetch, which degrades to an empty observation list. -/
def obsOf (r : Option FREDResponse) : List FREDObservation :=
  match r with
  | some resp => resp.observations
  | none => []

/-- `fetchAllHousingData()`. The five `Promise.allSettled` outcomes are the
five `Option FREDResponse` arguments, in the fetch order hpi, activeListings,
buildingPermits, rentCPI, unemploymentRate. Each metric value is the source's
`latest ? format(latest) : 'N/A'` ternary (truthiness: null, NaN and 0 give
"N/A"). Assembly is total, so the surrounding `try/catch`'s fallback payload
(the same five slots with "N/A"/"+0.0%"/neutral and empty charts) is
unreachable in this model — no exception escapes to the caller. -/
def fetchAllHousingData (tzOffsetMin : Int) (now : RequestTime)
    (hpiData inventoryData permitsData rentData unemploymentData : Option FREDResponse) :
    HousingData :=
  let hpiObs := obsOf hpiData
  let hpiLatest := getLatestValue hpiObs
  let hpiChange := getYearOverYearChange tzOffsetMin now hpiObs
  let inventoryObs := obsOf inventoryData
  let inventoryLatest := getLatestValue inventoryObs
  let inventoryChange := getMonthOverMonthChange inventoryObs
  let permitsObs := obsOf permitsData
  let permitsLatest := getLatestValue permitsObs
  let permitsChange := getMonthOverMonthChange permitsObs
  let rentObs := obsOf rentData
  let rentLatest := getLatestValue rentObs
  let rentChange := getYearOverYearChange tzOffsetMin now rentObs
  let unemploymentObs := obsOf unemploymentData
  let unemploymentLatest := getLatestValue unemploymentObs
  let unemploymentChange := getMonthOverMonthChange unemploymentObs
  { metrics := [
      { id := "hpi", title := "House Price Index",
        value := match hpiLatest with
          | some (JSNum.num q) => if q = 0 then "N/A" else jsToFixed1 q
          | _ => "N/A",
        change := hpiChange,
        changeType := getChangeType hpiChange "hpi",
        description := "Year-over-year change" },
      { id := "inventory", title := "Active Listings",
        value := match inventoryLatest with
          | some (JSNum.num q) =>
            if q = 0 then "N/A" else formatNumber (jsMathRound (JSNum.num q))
          | _ => "N/A",
        change := inventoryChange,
        changeType := getChangeType inventoryChange "inventory",
        description := "Month-over-month change" },
      { id := "rent", title := "Rental CPI",
        value := match rentLatest with
          | some (JSNum.num q) => if q = 0 then "N/A" else jsToFixed1 q
          | _ => "N/A",
        change := rentChange,
        changeType := getChangeType rentChange "rent",
        description := "Year-over-year change" },
      { id := "permits", title := "Building Permits",
        value := match permitsLatest with
          | some (JSNum.num q) =>
            if q = 0 then "N/A" else formatNumber (jsMathRound (JSNum.num q))
          | _ => "N/A",
        change := permitsChange,
        changeType := getChangeType permitsChange "permits",
        description := "Monthly permits issued" },
      { id := "unemployment", title := "Unemployment Rate",
        value := match unemploymentLatest with
          | some (JSNum.num q) => if q = 0 then "N/A" else jsToFixed1 q ++ "%"
          | _ => "N/A",
        change := unemploymentChange,
        changeType := getChangeType unemploymentChange "unemployment",
        description := "Month-over-month change" }],
    housePriceIndex := transformFREDData tzOffsetMin hpiObs none,
    activeListings := transformFREDData tzOffsetMin inventoryObs none,
    buildingPermits := transformFREDData tzOffsetMin permitsObs none,
    rentCPI := transformFREDData tzOffsetMin rentObs none,
    unemploymentRate := transformFREDData tzOffsetMin unemploymentObs none }

/-!
Spec-side definitions: the formatting and anchoring rules as the
specification's sentences state them, to be compared with the code's.
-/

/-- The percentage-change format the spec describes: the value
`(new - old) / old * 100` rendered to one decimal place with an explicit
sign, "+" for zero or positive and "-" for negative. -/
def claimedSignedPercent (v : ℚ) : String :=
  (if v < 0 then "-" else "+") ++ fixedOneDecimal |v| ++ "%"

/-- Whether an observation's parsed date lies strictly within 45 days of the
target instant (false for an unparseable date, as NaN comparisons are). -/
def withinWindowB (targetMs : Int) (o : FREDObservation) : Bool :=
  match parseISODate o.date with
  | some (y, m, d) => decide ((daysFromCivil y m d * 86400000 - targetMs).natAbs < 3888000000)
  | none => false

/-- The first non-missing observation within 45 days of the anchor, in list
order, as a parsed value. -/
def anchoredYearAgoValue (targetMs : Int) (observations : List FREDObservation) : Option JSNum :=
  (observations.find? (fun o => (o.value != "." && o.value != "") && withinWindowB targetMs o)).map
    (fun o => jsParseFloat o.value)

/-- The latest valid value as the spec words it: the first non-missing
observation scanning backward from the most recent, parsed; null if none. -/
def specLatestValue (observations : List FREDObservation) : Option JSNum :=
  (observations.reverse.find? (fun o => o.value != "." && o.value != "")).map
    (fun o => jsParseFloat o.value)

/-- The year-over-year change as the amended claim describes it: anchored at
the request's civil clock minus one calendar year; "+0.0%" whenever the latest
valid value is absent, NaN or zero, no non-missing observation lies within 45
days of the anchor, or the anchored value is NaN or zero. -/
def requestAnchoredYoY (tzOffsetMin : Int) (now : RequestTime)
    (observations : List FREDObservation) : String :=
  let targetMs : Int :=
    daysFromCivil (now.year - 1) now.month now.day * 86400000 + now.msOfDay -
      tzOffsetMin * 60000
  match specLatestValue observations, anchoredYearAgoValue targetMs observations with
  | some (JSNum.num latest), some (JSNum.num yearAgo) =>
    if latest = 0 ∨ yearAgo = 0 then "+0.0%"
    else calculatePercentageChange (JSNum.num yearAgo) (JSNum.num latest)
  | _, _ => "+0.0%"

/-- The year-over-year change as the claim states it: anchored at the latest
observation's own date minus one calendar year, independent of request time. -/
def latestAnchoredYoY (observations : List FREDObservation) : String :=
  match observations.getLast? with
  | some lastObs =>
    match parseISODate lastObs.date with
    | some (y, m, d) =>
      let targetMs : Int := daysFromCivil (y - 1) m d * 86400000
      match specLatestValue observations, anchoredYearAgoValue targetMs observations with
      | some (JSNum.num latest), some (JSNum.num yearAgo) =>
        if latest = 0 ∨ yearAgo = 0 then "+0.0%"
        else calculatePercentageChange (JSNum.num yearAgo) (JSNum.num latest)
      | _, _ => "+0.0%"
    | none => "+0.0%"
  | none => "+0.0%"

/-!
Claim theorems.
-/

/-- C4: for all numbers, `calculatePercentageChange` is exactly the spec's
format — `(new - old) / old * 100` to one decimal with an explicit sign — and
a zero old value is special-cased to "+0.0%" with no division artifact. -/
theorem C4_percentage_change_format (oldValue newValue : ℚ) :
    calculatePercentageChange (JSNum.num oldValue) (JSNum.num newValue) =
      if oldValue = 0 then "+0.0%"
      else claimedSignedPercent ((newValue - oldValue) / oldValue * 100) := by
  by_cases h : oldValue = 0
  · simp [calculatePercentageChange, h]
  · have hj : ¬ (JSNum.num oldValue = JSNum.num 0) := by simpa using h
    rw [if_neg h]
    unfold calculatePercentageChange
    rw [if_neg hj]
    simp only [jsSub, jsDiv, jsMul, if_neg h, claimedSignedPercent, JSNum.toFixed1, jsToFixed1]
    by_cases hv : (newValue - oldValue) / oldValue * 100 < 0
    · rw [if_pos hv, abs_of_neg hv]
      have : jsGe (JSNum.num ((newValue - oldValue) / oldValue * 100)) (JSNum.num 0) = false := by
        simp [jsGe]
        linarith
      rw [this]
      simp [hv, String.append_assoc]
    · rw [if_neg hv, abs_of_nonneg (le_of_not_lt hv)]
      have : jsGe (JSNum.num ((newValue - oldValue) / oldValue * 100)) (JSNum.num 0) = true := by
        simp [jsGe]
        linarith [le_of_not_lt hv]
      rw [this]
      simp [hv]

/-- C6: `getChangeType` classifies the parsed change per metric role: zero is
neutral for every role; the unemployment role maps a negative change to
"positive" and a positive change to "negative"; every other role (including
inventory) maps a positive change to "positive" and a negative one to
"negative". -/
theorem C6_change_polarity (change metricId : String) :
    (jsParseFloat change = JSNum.num 0 →
      getChangeType change metricId = ChangeType.neutral) ∧
    (∀ q : ℚ, jsParseFloat change = JSNum.num q → q < 0 → metricId = "unemployment" →
      getChangeType change metricId = ChangeType.positive) ∧
    (∀ q : ℚ, jsParseFloat change = JSNum.num q → 0 < q → metricId = "unemployment" →
      getChangeType change metricId = ChangeType.negative) ∧
    (∀ q : ℚ, jsParseFloat change = JSNum.num q → 0 < q → metricId ≠ "unemployment" →
      getChangeType change metricId = ChangeType.positive) ∧
    (∀ q : ℚ, jsParseFloat change = JSNum.num q → q < 0 → metricId ≠ "unemployment" →
      getChangeType change metricId = ChangeType.negative) := by
  refine ⟨?_, ?_, ?_, ?_, ?_⟩
  · intro h
    unfold getChangeType
    rw [h]
    simp
  · intro q h hq hid
    unfold getChangeType
    rw [h, hid]
    have h0 : ¬ (JSNum.num q = JSNum.num 0) := by simp; exact ne_of_lt hq
    rw [if_neg h0]
    simp [jsLt, hq]
  · intro q h hq hid
    unfold getChangeType
    rw [h, hid]
    have h0 : ¬ (JSNum.num q = JSNum.num 0) := by simp; exact (ne_of_gt hq)
    rw [if_neg h0]
    simp [jsLt, not_lt.mpr (le_of_lt hq)]
  · intro q h hq hid
    unfold getChangeType
    rw [h]
    have h0 : ¬ (JSNum.num q = JSNum.num 0) := by simp; exact (ne_of_gt hq)
    rw [if_neg h0, if_neg hid]
    by_cases hinv : metricId = "inventory"
    · rw [if_pos hinv]
      simp [jsLt, hq]
    · rw [if_neg hinv]
      simp [jsLt, hq]
  · intro q h hq hid
    unfold getChangeType
    rw [h]
    have h0 : ¬ (JSNum.num q = JSNum.num 0) := by simp; exact ne_of_lt hq
    rw [if_neg h0, if_neg hid]
    by_cases hinv : metricId = "inventory"
    · rw [if_pos hinv]
      simp [jsLt, not_lt.mpr (le_of_lt hq)]
    · rw [if_neg hinv]
      simp [jsLt, not_lt.mpr (le_of_lt hq)]

/-- Witness for C6 at the spec's own examples: the unemployment role
classifies the negative change "-3.2%" as positive, the inventory role
classifies it as negative, and a zero change is neutral. -/
theorem C6_change_polarity_witness :
    getChangeType "-3.2%" "unemployment" = ChangeType.positive ∧
    getChangeType "-3.2%" "inventory" = ChangeType.negative ∧
    getChangeType "+0.0%" "hpi" = ChangeType.neutral :=
  ⟨(C6_change_polarity "-3.2%" "unemployment").2.1 (-16/5) (by decide) (by decide) rfl,
   (C6_change_polarity "-3.2%" "inventory").2.2.2.2 (-16/5) (by decide) (by decide) (by decide),
   (C6_change_polarity "+0.0%" "hpi").1 (by decide)⟩

/-- C9: with the credential absent, `fetchFREDSeries` fails with the exact
configuration error for every series and limit and independently of the
network (no network outcome is consulted), and that error is distinguishable
from upstream-status and transport errors by construction. -/
theorem C9_missing_key_config_error :
    (∀ (seriesId : String) (limit : Option JSNum) (net : Except String HttpReply),
      fetchFREDSeries none seriesId limit net =
        Except.error (FetchError.configError "FRED_API_KEY environment variable is not set")) ∧
    (∀ (m : String) (s : Nat) (t : String),
      FetchError.configError m ≠ FetchError.upstreamError s t) ∧
    (∀ m t : String, FetchError.configError m ≠ FetchError.transportError t) :=
  ⟨fun _ _ _ => rfl,
   fun _ _ _ h => FetchError.noConfusion h,
   fun _ _ h => FetchError.noConfusion h⟩

/-- C10: a point-count limit of exactly 0 is falsy in the `limit ?` guard, so
`transformFREDData` returns every valid point, exactly as when the limit is
omitted. -/
theorem C10_zero_limit_returns_all (tzOffsetMin : Int) (observations : List FREDObservation) :
    transformFREDData tzOffsetMin observations (some (JSNum.num 0)) =
      transformFREDData tzOffsetMin observations none := by
  simp [transformFREDData]

/-- C7: a positive limit n keeps exactly the last n valid points of the
unlimited transform, in their original order (all of them when fewer than n
exist); the unlimited transform itself carries every valid point. -/
theorem C7_limit_keeps_last_n (tzOffsetMin : Int) (observations : List FREDObservation)
    (n : ℕ) (hn : 0 < n) :
    transformFREDData tzOffsetMin observations (some (JSNum.num n)) =
      (transformFREDData tzOffsetMin observations none).drop
        ((transformFREDData tzOffsetMin observations none).length - n) ∧
    (transformFREDData tzOffsetMin observations none).length =
      (observations.filter (fun o => o.value != "." && o.value != "")).length := by
  constructor
  · have hne : ((n : ℚ)) ≠ 0 := Nat.cast_ne_zero.mpr hn.ne'
    simp only [transformFREDData, if_neg hne]
    have htr : jsTruncQ (-(n : ℚ)) = -(n : Int) := by
      unfold jsTruncQ
      rcases Nat.eq_zero_or_pos n with h0 | hpos
      · omega
      · have hlt : ¬ (0 : ℚ) ≤ -(n : ℚ) := by
          have hq : (0 : ℚ) < (n : ℚ) := by exact_mod_cast hpos
          linarith
        rw [if_neg hlt]
        simp
    unfold jsSliceFrom
    rw [htr]
    have hklt : (-(n : Int)) < 0 := by omega
    rw [if_pos hklt]
    rw [List.map_drop, List.length_map]
    congr 1
    omega
  · simp only [transformFREDData, List.length_map]

/-- Witness for C7: a limit of 2 on three valid points keeps the last two, in
order. -/
theorem C7_limit_keeps_last_n_witness :
    transformFREDData 0
        [⟨"2023-01-01", "1"⟩, ⟨"2023-02-01", "2"⟩, ⟨"2023-03-01", "3"⟩]
        (some (JSNum.num 2)) =
      (transformFREDData 0
          [⟨"2023-01-01", "1"⟩, ⟨"2023-02-01", "2"⟩, ⟨"2023-03-01", "3"⟩] none).drop
        ((transformFREDData 0
            [⟨"2023-01-01", "1"⟩, ⟨"2023-02-01", "2"⟩, ⟨"2023-03-01", "3"⟩] none).length - 2) ∧
    (transformFREDData 0
        [⟨"2023-01-01", "1"⟩, ⟨"2023-02-01", "2"⟩, ⟨"2023-03-01", "3"⟩] none).length =
      ([⟨"2023-01-01", "1"⟩, ⟨"2023-02-01", "2"⟩,
        ⟨"2023-03-01", "3"⟩].filter (fun o : FREDObservation =>
          o.value != "." && o.value != "")).length :=
  C7_limit_keeps_last_n 0
    [⟨"2023-01-01", "1"⟩, ⟨"2023-02-01", "2"⟩, ⟨"2023-03-01", "3"⟩] 2 (by decide)

/-- C8: the unlimited transform keeps exactly the observations whose value is
not the missing marker "." and not the empty string, in order; and for every
limit, an all-missing observation list transforms to the empty sequence. -/
theorem C8_missing_values_filtered (tzOffsetMin : Int) (observations : List FREDObservation) :
    (transformFREDData tzOffsetMin observations none =
      (observations.filter (fun o => decide ¬(o.value = "." ∨ o.value = ""))).map
        (fun o => { date := jsMonthYearLabel tzOffsetMin o.date, value := jsParseFloat o.value })) ∧
    (∀ limit : Option JSNum, (∀ o ∈ observations, o.value = "." ∨ o.value = "") →
      transformFREDData tzOffsetMin observations limit = []) := by
  have hpred : ∀ o : FREDObservation,
      (o.value != "." && o.value != "") = decide ¬(o.value = "." ∨ o.value = "") := by
    intro o
    by_cases h1 : o.value = "." <;> by_cases h2 : o.value = "" <;> simp [h1, h2]
  constructor
  · simp only [transformFREDData]
    rw [List.filter_congr (fun o _ => hpred o)]
  · intro limit hall
    have hfil : observations.filter (fun o => o.value != "." && o.value != "") = [] := by
      rw [List.filter_eq_nil_iff]
      intro o ho
      rw [hpred o]
      simp only [decide_eq_true_eq, Decidable.not_not]
      exact hall o ho
    simp only [transformFREDData, hfil]
    rcases limit with _ | j
    · rfl
    · rcases j with _ | q
      · rfl
      · by_cases hq : q = 0
        · simp [hq]
        · simp [hq, jsSliceFrom]

/-- Witness for C8: a list with only missing markers transforms to the empty
sequence. -/
theorem C8_missing_values_filtered_witness :
    transformFREDData 0 [⟨"2023-01-01", "."⟩, ⟨"2023-02-01", ""⟩] none = [] :=
  (C8_missing_values_filtered 0 [⟨"2023-01-01", "."⟩, ⟨"2023-02-01", ""⟩]).2 none (by decide)

/-- Year-over-year change of an empty series: no latest value, so "+0.0%". -/
theorem getYearOverYearChange_nil (tzOffsetMin : Int) (now : RequestTime) :
    getYearOverYearChange tzOffsetMin now [] = "+0.0%" := rfl

/-- Month-over-month change of an empty series: fewer than two valid points. -/
theorem getMonthOverMonthChange_nil : getMonthOverMonthChange [] = "+0.0%" := rfl

/-- Transforming an empty series gives an empty chart. -/
theorem transformFREDData_nil (tzOffsetMin : Int) (limit : Option JSNum) :
    transformFREDData tzOffsetMin [] limit = [] := by
  rcases limit with _ | j
  · rfl
  · rcases j with _ | q
    · rfl
    · by_cases hq : q = 0
      · simp [transformFREDData, hq]
      · simp [transformFREDData, hq, jsSliceFrom]

/-- The change string "+0.0%" parses to zero, so it is neutral for any role. -/
theorem getChangeType_zero (metricId : String) :
    getChangeType "+0.0%" metricId = ChangeType.neutral := by
  unfold getChangeType
  have h : jsParseFloat "+0.0%" = JSNum.num 0 := by decide
  rw [h]
  simp

/-- C1: for every combination of per-series fetch outcomes, the assembled
payload is total (never an exception) with the five metric identifiers in the
stable order hpi, inventory, rent, permits, unemployment and all five chart
fields present by construction; each series whose fetch failed or returned no
observations contributes an empty chart sequence and an "N/A"-valued,
"+0.0%", neutral metric rather than an omitted field. -/
theorem C1_payload_shape_under_failures (tzOffsetMin : Int) (now : RequestTime)
    (r1 r2 r3 r4 r5 : Option FREDResponse) :
    (fetchAllHousingData tzOffsetMin now r1 r2 r3 r4 r5).metrics.map HousingMetric.id =
        ["hpi", "inventory", "rent", "permits", "unemployment"] ∧
    (obsOf r1 = [] →
      (fetchAllHousingData tzOffsetMin now r1 r2 r3 r4 r5).housePriceIndex = [] ∧
      (fetchAllHousingData tzOffsetMin now r1 r2 r3 r4 r5).metrics.get? 0 =
        some ⟨"hpi", "House Price Index", "N/A", "+0.0%", ChangeType.neutral,
          "Year-over-year change"⟩) ∧
    (obsOf r2 = [] →
      (fetchAllHousingData tzOffsetMin now r1 r2 r3 r4 r5).activeListings = [] ∧
      (fetchAllHousingData tzOffsetMin now r1 r2 r3 r4 r5).metrics.get? 1 =
        some ⟨"inventory", "Active Listings", "N/A", "+0.0%", ChangeType.neutral,
          "Month-over-month change"⟩) ∧
    (obsOf r4 = [] →
      (fetchAllHousingData tzOffsetMin now r1 r2 r3 r4 r5).rentCPI = [] ∧
      (fetchAllHousingData tzOffsetMin now r1 r2 r3 r4 r5).metrics.get? 2 =
        some ⟨"rent", "Rental CPI", "N/A", "+0.0%", ChangeType.neutral,
          "Year-over-year change"⟩) ∧
    (obsOf r3 = [] →
      (fetchAllHousingData tzOffsetMin now r1 r2 r3 r4 r5).buildingPermits = [] ∧
      (fetchAllHousingData tzOffsetMin now r1 r2 r3 r4 r5).metrics.get? 3 =
        some ⟨"permits", "Building Permits", "N/A", "+0.0%", ChangeType.neutral,
          "Monthly permits issued"⟩) ∧
    (obsOf r5 = [] →
      (fetchAllHousingData tzOffsetMin now r1 r2 r3 r4 r5).unemploymentRate = [] ∧
      (fetchAllHousingData tzOffsetMin now r1 r2 r3 r4 r5).metrics.get? 4 =
        some ⟨"unemployment", "Unemployment Rate", "N/A", "+0.0%", ChangeType.neutral,
          "Month-over-month change"⟩) := by
  refine ⟨rfl, ?_, ?_, ?_, ?_, ?_⟩
  · intro h
    constructor
    · simp only [fetchAllHousingData]
      rw [h, transformFREDData_nil]
    · simp only [fetchAllHousingData]
      rw [h]
      simp only [getYearOverYearChange_nil, getChangeType_zero]
      rfl
  · intro h
    constructor
    · simp only [fetchAllHousingData]
      rw [h, transformFREDData_nil]
    · simp only [fetchAllHousingData]
      rw [h]
      simp only [getMonthOverMonthChange_nil, getChangeType_zero]
      rfl
  · intro h
    constructor
    · simp only [fetchAllHousingData]
      rw [h, transformFREDData_nil]
    · simp only [fetchAllHousingData]
      rw [h]
      simp only [getYearOverYearChange_nil, getChangeType_zero]
      rfl
  · intro h
    constructor
    · simp only [fetchAllHousingData]
      rw [h, transformFREDData_nil]
    · simp only [fetchAllHousingData]
      rw [h]
      simp only [getMonthOverMonthChange_nil, getChangeType_zero]
      rfl
  · intro h
    constructor
    · simp only [fetchAllHousingData]
      rw [h, transformFREDData_nil]
    · simp only [fetchAllHousingData]
      rw [h]
      simp only [getMonthOverMonthChange_nil, getChangeType_zero]
      rfl

/-- Witness for C1: with all five fetches failed, the payload still has the
five identifiers in order, and every slot degrades to an empty chart and an
"N/A"/"+0.0%"/neutral metric. -/
theorem C1_payload_shape_under_failures_witness :
    (fetchAllHousingData 0 ⟨2026, 1, 1, 0⟩ none none none none none).metrics.map
        HousingMetric.id = ["hpi", "inventory", "rent", "permits", "unemployment"] ∧
    (fetchAllHousingData 0 ⟨2026, 1, 1, 0⟩ none none none none none).housePriceIndex = [] ∧
    (fetchAllHousingData 0 ⟨2026, 1, 1, 0⟩ none none none none none).metrics.get? 0 =
      some ⟨"hpi", "House Price Index", "N/A", "+0.0%", ChangeType.neutral,
        "Year-over-year change"⟩ ∧
    (fetchAllHousingData 0 ⟨2026, 1, 1, 0⟩ none none none none none).activeListings = [] ∧
    (fetchAllHousingData 0 ⟨2026, 1, 1, 0⟩ none none none none none).metrics.get? 1 =
      some ⟨"inventory", "Active Listings", "N/A", "+0.0%", ChangeType.neutral,
        "Month-over-month change"⟩ ∧
    (fetchAllHousingData 0 ⟨2026, 1, 1, 0⟩ none none none none none).rentCPI = [] ∧
    (fetchAllHousingData 0 ⟨2026, 1, 1, 0⟩ none none none none none).metrics.get? 2 =
      some ⟨"rent", "Rental CPI", "N/A", "+0.0%", ChangeType.neutral,
        "Year-over-year change"⟩ ∧
    (fetchAllHousingData 0 ⟨2026, 1, 1, 0⟩ none none none none none).buildingPermits = [] ∧
    (fetchAllHousingData 0 ⟨2026, 1, 1, 0⟩ none none none none none).metrics.get? 3 =
      some ⟨"permits", "Building Permits", "N/A", "+0.0%", ChangeType.neutral,
        "Monthly permits issued"⟩ ∧
    (fetchAllHousingData 0 ⟨2026, 1, 1, 0⟩ none none none none none).unemploymentRate = [] ∧
    (fetchAllHousingData 0 ⟨2026, 1, 1, 0⟩ none none none none none).metrics.get? 4 =
      some ⟨"unemployment", "Unemployment Rate", "N/A", "+0.0%", ChangeType.neutral,
        "Month-over-month change"⟩ := by
  have h := C1_payload_shape_under_failures 0 ⟨2026, 1, 1, 0⟩ none none none none none
  obtain ⟨h0, h1, h2, h3, h4, h5⟩ := h
  obtain ⟨a1, b1⟩ := h1 rfl
  obtain ⟨a2, b2⟩ := h2 rfl
  obtain ⟨a3, b3⟩ := h3 rfl
  obtain ⟨a4, b4⟩ := h4 rfl
  obtain ⟨a5, b5⟩ := h5 rfl
  exact ⟨h0, a1, b1, a2, b2, a3, b3, a4, b4, a5, b5⟩

/-- Every entry of a digit list is below 10. -/
theorem natDigitsRevAux_lt (fuel : ℕ) :
    ∀ (n d : ℕ), d ∈ natDigitsRevAux fuel n → d < 10 := by
  induction fuel with
  | zero => intro n d hd; simp [natDigitsRevAux] at hd
  | succ f ih =>
    intro n d hd
    unfold natDigitsRevAux at hd
    by_cases h : n = 0
    · simp [h] at hd
    · rw [if_neg h] at hd
      rcases List.mem_cons.mp hd with h1 | h2
      · subst h1; exact Nat.mod_lt _ (by norm_num)
      · exact ih _ _ h2

/-- The rendered character of a digit has a decimal-digit code point. -/
theorem charOfDigit_toNat (d : ℕ) (hd : d < 10) : (Char.ofNat (48 + d)).toNat = 48 + d := by
  interval_cases d <;> decide

/-- Every character a natural number renders to is a decimal digit. -/
theorem natRepr_chars (n : ℕ) : ∀ c ∈ (natRepr n).data, 48 ≤ c.toNat ∧ c.toNat ≤ 57 := by
  intro c hc
  unfold natRepr at hc
  by_cases h : n = 0
  · rw [if_pos h] at hc
    have : c = '0' := by simpa using hc
    subst this
    decide
  · rw [if_neg h] at hc
    have hc' : c ∈ ((natDigitsRev n).reverse).map (fun d => Char.ofNat (48 + d)) := hc
    rcases List.mem_map.mp hc' with ⟨d, hdm, hdc⟩
    have hd10 : d < 10 := natDigitsRevAux_lt n n d (List.mem_reverse.mp hdm)
    subst hdc
    rw [charOfDigit_toNat d hd10]
    omega

/-- A fixed-one-decimal rendering is never the literal string "N/A". -/
theorem fixedOneDecimal_ne_NA (x : ℚ) : fixedOneDecimal x ≠ "N/A" := by
  intro h
  have hd := congrArg String.data h
  unfold fixedOneDecimal at hd
  simp only [String.data_append] at hd
  have hmem : ('N' : Char) ∈ (natRepr ((⌊10 * x + 1 / 2⌋).toNat / 10)).data ++
      ".".data ++ (natRepr ((⌊10 * x + 1 / 2⌋).toNat % 10)).data := by
    rw [hd]
    decide
  rcases List.mem_append.mp hmem with hmem1 | hmem3
  · rcases List.mem_append.mp hmem1 with hmem1 | hmem2
    · have := natRepr_chars _ _ hmem1
      revert this
      decide
    · revert hmem2
      decide
  · have := natRepr_chars _ _ hmem3
    revert this
    decide

/-- A `toFixed(1)` rendering is never the literal string "N/A". -/
theorem jsToFixed1_ne_NA (x : ℚ) : jsToFixed1 x ≠ "N/A" := by
  unfold jsToFixed1
  split_ifs
  · intro h
    have hd := congrArg String.data h
    simp only [String.data_append] at hd
    have : ('-' : Char) :: (fixedOneDecimal (-x)).data = ['N', '/', 'A'] := hd
    have hhead := congrArg List.head? this
    simp at hhead
  · exact fixedOneDecimal_ne_NA x

/-- A percent-suffixed `toFixed(1)` rendering is never "N/A" either. -/
theorem jsToFixed1_percent_ne_NA (x : ℚ) : jsToFixed1 x ++ "%" ≠ "N/A" := by
  unfold jsToFixed1
  split_ifs
  · intro h
    have hd := congrArg String.data h
    simp only [String.data_append] at hd
    have : ('-' : Char) :: ((fixedOneDecimal (-x)).data ++ ['%']) = ['N', '/', 'A'] := by
      simpa using hd
    have hhead := congrArg List.head? this
    simp at hhead
  · intro h
    have hd := congrArg String.data h
    unfold fixedOneDecimal at hd
    simp only [String.data_append] at hd
    have hmem : ('N' : Char) ∈ (natRepr ((⌊10 * x + 1 / 2⌋).toNat / 10)).data ++
        ".".data ++ (natRepr ((⌊10 * x + 1 / 2⌋).toNat % 10)).data ++ "%".data := by
      rw [hd]
      decide
    rcases List.mem_append.mp hmem with hmem1 | hmem4
    · rcases List.mem_append.mp hmem1 with hmem1 | hmem3
      · rcases List.mem_append.mp hmem1 with hmem1 | hmem2
        · have := natRepr_chars _ _ hmem1
          revert this
          decide
        · revert hmem2
          decide
      · have := natRepr_chars _ _ hmem3
        revert this
        decide
    · revert hmem4
      decide

/-- The backward scan equals `find?` over the reversed list. -/
theorem lastValidValue_eq_find (l : List FREDObservation) :
    lastValidValue l = (l.find? (fun o => o.value != "." && o.value != "")).map
      (fun o => jsParseFloat o.value) := by
  induction l with
  | nil => rfl
  | cons o rest ih =>
    unfold lastValidValue
    by_cases h : (o.value != "." && o.value != "") = true
    · rw [if_pos h]
      simp [List.find?_cons, h]
    · have h' : (o.value != "." && o.value != "") = false := by simpa using h
      rw [if_neg h]
      simp [List.find?_cons, h']
      exact ih

/-- `getLatestValue` is the spec's backward scan. -/
theorem getLatestValue_eq_spec (observations : List FREDObservation) :
    getLatestValue observations = specLatestValue observations :=
  lastValidValue_eq_find observations.reverse

/-- C3 (amended): the latest valid value is the first non-missing value
scanning backward (null exactly when none exists), but the hpi metric's
displayed value is "N/A" not only when no latest value exists: the source's
`hpiLatest ? hpiLatest.toFixed(1) : 'N/A'` is a truthiness test, so a latest
value of NaN or exactly 0 also displays "N/A". -/
theorem C3_latest_value_and_na_display :
    (∀ observations : List FREDObservation,
      getLatestValue observations = specLatestValue observations) ∧
    (∀ observations : List FREDObservation,
      (getLatestValue observations = none ↔
        ∀ o ∈ observations, o.value = "." ∨ o.value = "")) ∧
    (∀ (tzOffsetMin : Int) (now : RequestTime) (r1 r2 r3 r4 r5 : Option FREDResponse),
      ((fetchAllHousingData tzOffsetMin now r1 r2 r3 r4 r5).metrics.get? 0).map
          HousingMetric.value = some "N/A" ↔
        (getLatestValue (obsOf r1) = none ∨ getLatestValue (obsOf r1) = some JSNum.nan ∨
          getLatestValue (obsOf r1) = some (JSNum.num 0))) := by
  refine ⟨getLatestValue_eq_spec, ?_, ?_⟩
  · intro observations
    rw [getLatestValue_eq_spec]
    unfold specLatestValue
    constructor
    · intro h o ho
      rcases hf : observations.reverse.find? (fun o => o.value != "." && o.value != "") with
        _ | found
      · have := List.find?_eq_none.mp hf o (List.mem_reverse.mpr ho)
        by_cases h1 : o.value = "."
        · exact Or.inl h1
        · by_cases h2 : o.value = ""
          · exact Or.inr h2
          · exfalso
            apply this
            simp [h1, h2]
      · rw [hf] at h
        simp at h
    · intro h
      rcases hf : observations.reverse.find? (fun o => o.value != "." && o.value != "") with
        _ | found
      · rw [hf]
        rfl
      · exfalso
        have hmem := List.find?_some hf
        have hin : found ∈ observations := List.mem_reverse.mp (List.mem_of_find?_eq_some hf)
        rcases h found hin with h1 | h2
        · rw [h1] at hmem
          simp at hmem
        · rw [h2] at hmem
          simp at hmem
  · intro tzOffsetMin now r1 r2 r3 r4 r5
    rcases hl : getLatestValue (obsOf r1) with _ | j
    · simp [fetchAllHousingData, hl]
    · rcases j with _ | q
      · simp [fetchAllHousingData, hl]
      · by_cases hq : q = 0
        · subst hq
          simp [fetchAllHousingData, hl]
        · simp [fetchAllHousingData, hl, hq, jsToFixed1_ne_NA]

/-- Counterexample to C3 as stated: a series whose only observation carries
the non-missing numeric value 0 still displays "N/A" — the latest valid value
exists (it is 0) but the truthiness test rejects it. -/
theorem C3_zero_displays_na_counterexample :
    getLatestValue [⟨"2024-01-01", "0"⟩] = some (JSNum.num 0) ∧
    ((fetchAllHousingData 0 ⟨2026, 1, 1, 0⟩ (some ⟨[⟨"2024-01-01", "0"⟩]⟩) none none none
        none).metrics.get? 0).map HousingMetric.value = some "N/A" := by
  constructor
  · decide
  · decide

/-- The year-ago search loop equals `find?` with the combined predicate. -/
theorem findYearAgo_eq (observations : List FREDObservation) (targetMs : Int) :
    findYearAgo observations targetMs = anchoredYearAgoValue targetMs observations := by
  induction observations with
  | nil => rfl
  | cons o rest ih =>
    unfold findYearAgo anchoredYearAgoValue
    unfold anchoredYearAgoValue at ih
    by_cases h : (o.value != "." && o.value != "") = true
    · rw [if_pos h]
      rcases hp : parseISODate o.date with _ | triple
      · have hw : withinWindowB targetMs o = false := by
          unfold withinWindowB
          rw [hp]
        simp [List.find?_cons, h, hw]
        exact ih
      · rcases triple with ⟨y, m, d⟩
        by_cases hin : (daysFromCivil y m d * 86400000 - targetMs).natAbs < 3888000000
        · have hw : withinWindowB targetMs o = true := by
            unfold withinWindowB
            rw [hp]
            simpa using hin
          simp [List.find?_cons, h, hw, hin]
        · have hw : withinWindowB targetMs o = false := by
            unfold withinWindowB
            rw [hp]
            simpa using hin
          simp [List.find?_cons, h, hw, hin]
          exact ih
    · have h' : (o.value != "." && o.value != "") = false := by simpa using h
      rw [if_neg h]
      simp [List.find?_cons, h']
      exact ih

/-- C2 (amended): the year-over-year change is anchored at the request's
current civil date minus one calendar year — not at the latest observation's
date. It scans the observations in order for the first non-missing one within
45 days of that anchor; "+0.0%" results whenever the latest valid value is
absent, NaN or zero, no anchored observation is found, or the anchored value
is NaN or zero; otherwise it is the signed percentage change from the
year-ago value to the latest valid value. -/
theorem C2_yoy_request_anchored (tzOffsetMin : Int) (now : RequestTime)
    (observations : List FREDObservation) :
    getYearOverYearChange tzOffsetMin now observations =
      requestAnchoredYoY tzOffsetMin now observations := by
  simp only [getYearOverYearChange, requestAnchoredYoY]
  rw [getLatestValue_eq_spec observations]
  rcases hspec : specLatestValue observations with _ | j
  · rfl
  · rcases j with _ | q
    · rfl
    · dsimp only
      by_cases hq : q = 0
      · subst hq
        rw [if_pos rfl]
        rcases hanch : anchoredYearAgoValue
            (daysFromCivil (now.year - 1) now.month now.day * 86400000 + now.msOfDay -
              tzOffsetMin * 60000) observations with _ | j2
        · rfl
        · rcases j2 with _ | p
          · rfl
          · dsimp only
            rw [if_pos (Or.inl rfl)]
      · rw [if_neg hq]
        rw [findYearAgo_eq]
        rcases hanch : anchoredYearAgoValue
            (daysFromCivil (now.year - 1) now.month now.day * 86400000 + now.msOfDay -
              tzOffsetMin * 60000) observations with _ | j2
        · rfl
        · rcases j2 with _ | p
          · rfl
          · dsimp only
            by_cases hp : p = 0
            · subst hp
              rw [if_pos rfl, if_pos (Or.inr rfl)]
            · rw [if_neg hp, if_neg (by simp [hq, hp] : ¬ (q = 0 ∨ p = 0))]

/-- Counterexample to C2 as stated: with observations ending at 2021-01-01
(value 110, year-ago value 100 at 2020-01-01), an anchor at the latest
observation's date minus one year finds the year-ago value and reports
"+10.0%", but the code anchors at the request time (here mid-2026), finds no
observation within 45 days of mid-2025, and reports "+0.0%". -/
theorem C2_yoy_anchor_counterexample :
    getYearOverYearChange 0 ⟨2026, 6, 15, 0⟩
        [⟨"2020-01-01", "100"⟩, ⟨"2021-01-01", "110"⟩] = "+0.0%" ∧
    latestAnchoredYoY [⟨"2020-01-01", "100"⟩, ⟨"2021-01-01", "110"⟩] = "+10.0%" ∧
    getYearOverYearChange 0 ⟨2026, 6, 15, 0⟩
        [⟨"2020-01-01", "100"⟩, ⟨"2021-01-01", "110"⟩] ≠
      latestAnchoredYoY [⟨"2020-01-01", "100"⟩, ⟨"2021-01-01", "110"⟩] := by
  refine ⟨by decide, by decide, by decide⟩

/-- A month always has at least one day. -/
theorem daysInMonth_pos (y m : Int) : 1 ≤ daysInMonth y m := by
  unfold daysInMonth isLeapYear
  split_ifs <;> norm_num

/-- A parsed ISO date satisfies the calendar bounds the parser checked. -/
theorem parseISODate_valid {s : String} {y m d : Int}
    (h : parseISODate s = some (y, m, d)) :
    1 ≤ m ∧ m ≤ 12 ∧ 1 ≤ d ∧ d ≤ daysInMonth y m := by
  unfold parseISODate at h
  split at h
  all_goals first
    | exact Option.noConfusion h
    | (dsimp only at h
       split_ifs at h with hdig hrange
       all_goals first
         | exact Option.noConfusion h
         | (rw [Option.some.injEq] at h
            have h1 := congrArg (fun p : Int × Int × Int => p.1) h
            have h2 := congrArg (fun p : Int × Int × Int => p.2.1) h
            have h3 := congrArg (fun p : Int × Int × Int => p.2.2) h
            dsimp only at h1 h2 h3
            rw [← h1, ← h2, ← h3]
            exact hrange))

/-- Crossing back over a month's first day lands on the previous month's last
day. -/
theorem daysFromCivil_month_start (y m : Int) (hm : 2 ≤ m) (hm2 : m ≤ 12) :
    daysFromCivil y m 1 - 1 = daysFromCivil y (m - 1) (daysInMonth y (m - 1)) := by
  simp only [daysFromCivil, daysInMonth, isLeapYear]
  interval_cases m <;> split_ifs <;> omega

/-- Decomposing the day before a valid civil date: the same date with the day
decremented, rolling into the previous month (or December of the previous
year) from a month's first day. -/
theorem civilFromDays_pred (y m d : Int) (hm1 : 1 ≤ m) (hm2 : m ≤ 12)
    (hd1 : 1 ≤ d) (hd2 : d ≤ daysInMonth y m) :
    civilFromDays (daysFromCivil y m d - 1) =
      if d = 1 then
        (if m = 1 then ((y - 1 : Int), (12 : Int), (31 : Int))
         else (y, m - 1, daysInMonth y (m - 1)))
      else (y, m, d - 1) := by
  by_cases hd : d = 1
  · subst hd
    rw [if_pos rfl]
    by_cases hm : m = 1
    · subst hm
      rw [if_pos rfl]
      have hb : daysFromCivil y 1 1 - 1 = daysFromCivil (y - 1) 12 31 := by
        simp only [daysFromCivil]
        omega
      rw [hb]
      exact civil_roundtrip (y - 1) 12 31 (by norm_num) (by norm_num) (by norm_num)
        (by simp [daysInMonth])
    · rw [if_neg hm]
      have hb := daysFromCivil_month_start y m (by omega) hm2
      rw [hb]
      exact civil_roundtrip y (m - 1) (daysInMonth y (m - 1)) (by omega) (by omega)
        (daysInMonth_pos y (m - 1)) (le_refl _)
  · rw [if_neg hd]
    have hb : daysFromCivil y m d - 1 = daysFromCivil y m (d - 1) := by
      simp only [daysFromCivil]
      omega
    rw [hb]
    exact civil_roundtrip y m (d - 1) hm1 hm2 (by omega) (by omega)

/-- Transforming a single valid observation yields one labelled point. -/
theorem transformFREDData_singleton (tzOffsetMin : Int) (dateStr value : String)
    (hvalue : value ≠ "." ∧ value ≠ "") :
    transformFREDData tzOffsetMin [⟨dateStr, value⟩] none =
      [⟨jsMonthYearLabel tzOffsetMin dateStr, jsParseFloat value⟩] := by
  simp only [transformFREDData]
  have hb : (value != "." && value != "") = true := by
    simp [hvalue.1, hvalue.2]
  simp [List.filter_cons, hb]

/-- C5 (amended): the "Mon YYYY" label is the calendar month and year of the
observation's midnight-UTC date instant read in the server's local timezone,
independent of the request time. With a non-negative UTC offset it is the
month and year written in the date string; with a negative offset (as in the
repository's own test environment, whose test expects "Dec 2022" for
"2023-01-01") it is the previous calendar day's month and year — so every
first-of-month FRED date labels as the previous month. -/
theorem C5_label_follows_local_calendar (tzOffsetMin y m d : Int) (dateStr value : String)
    (hparse : parseISODate dateStr = some (y, m, d))
    (hvalue : value ≠ "." ∧ value ≠ "")
    (htz1 : -1440 < tzOffsetMin) (htz2 : tzOffsetMin < 1440) :
    (0 ≤ tzOffsetMin → transformFREDData tzOffsetMin [⟨dateStr, value⟩] none =
      [⟨monthNames.getD (m - 1).toNat "undefined" ++ " " ++ intRepr y,
        jsParseFloat value⟩]) ∧
    (tzOffsetMin < 0 → transformFREDData tzOffsetMin [⟨dateStr, value⟩] none =
      [⟨(if d = 1 then
          (if m = 1 then "Dec " ++ intRepr (y - 1)
           else monthNames.getD (m - 2).toNat "undefined" ++ " " ++ intRepr y)
         else monthNames.getD (m - 1).toNat "undefined" ++ " " ++ intRepr y),
        jsParseFloat value⟩]) := by
  obtain ⟨hm1, hm2, hd1, hd2⟩ := parseISODate_valid hparse
  rw [transformFREDData_singleton tzOffsetMin dateStr value hvalue]
  constructor
  · intro htz
    have hlabel : jsMonthYearLabel tzOffsetMin dateStr =
        monthNames.getD (m - 1).toNat "undefined" ++ " " ++ intRepr y := by
      simp only [jsMonthYearLabel]
      rw [hparse]
      dsimp only
      have hdays : (daysFromCivil y m d * 86400000 + tzOffsetMin * 60000) / 86400000 =
          daysFromCivil y m d := by omega
      rw [hdays, civil_roundtrip y m d hm1 hm2 hd1 hd2]
    rw [hlabel]
  · intro htz
    have hdays : (daysFromCivil y m d * 86400000 + tzOffsetMin * 60000) / 86400000 =
        daysFromCivil y m d - 1 := by omega
    have hlabel : jsMonthYearLabel tzOffsetMin dateStr =
        (if d = 1 then
          (if m = 1 then "Dec " ++ intRepr (y - 1)
           else monthNames.getD (m - 2).toNat "undefined" ++ " " ++ intRepr y)
         else monthNames.getD (m - 1).toNat "undefined" ++ " " ++ intRepr y) := by
      simp only [jsMonthYearLabel]
      rw [hparse]
      dsimp only
      rw [hdays, civilFromDays_pred y m d hm1 hm2 hd1 hd2]
      by_cases hdd : d = 1
      · rw [if_pos hdd, if_pos hdd]
        by_cases hmm : m = 1
        · rw [if_pos hmm, if_pos hmm]
          dsimp only
          rw [show ((12 : Int) - 1).toNat = 11 from by decide]
          rw [show monthNames.getD 11 "undefined" = "Dec" from rfl]
          rw [show (("Dec" : String) ++ " ") = "Dec " from rfl]
        · rw [if_neg hmm, if_neg hmm]
          dsimp only
          rw [show ((m - 1 : Int) - 1) = m - 2 from by ring]
      · rw [if_neg hdd, if_neg hdd]
    rw [hlabel]

/-- Witness for C5: at UTC offset 0 the label of "2023-01-01" is "Jan 2023";
at the test environment's offset (-360 minutes, US Central) it is "Dec 2022". -/
theorem C5_label_follows_local_calendar_witness :
    (transformFREDData 0 [⟨"2023-01-01", "100.5"⟩] none =
      [⟨monthNames.getD ((1 : Int) - 1).toNat "undefined" ++ " " ++ intRepr 2023,
        jsParseFloat "100.5"⟩]) ∧
    (transformFREDData (-360) [⟨"2023-01-01", "100.5"⟩] none =
      [⟨(if (1 : Int) = 1 then
          (if (1 : Int) = 1 then "Dec " ++ intRepr (2023 - 1)
           else monthNames.getD ((1 : Int) - 2).toNat "undefined" ++ " " ++ intRepr 2023)
         else monthNames.getD ((1 : Int) - 1).toNat "undefined" ++ " " ++ intRepr 2023),
        jsParseFloat "100.5"⟩]) :=
  ⟨(C5_label_follows_local_calendar 0 2023 1 1 "2023-01-01" "100.5" (by decide) (by decide)
      (by decide) (by decide)).1 (by decide),
   (C5_label_follows_local_calendar (-360) 2023 1 1 "2023-01-01" "100.5" (by decide) (by decide)
      (by decide) (by decide)).2 (by decide)⟩

/-- Counterexample to C5 as stated: in the repository's own test environment
(a negative UTC offset; the test expects "Dec 2022"), the observation dated
"2023-01-01" is labelled "Dec 2022", not the written month "Jan 2023". -/
theorem C5_label_counterexample :
    transformFREDData (-360) [⟨"2023-01-01", "100.5"⟩] none =
      [⟨"Dec 2022", JSNum.num (201 / 2)⟩] ∧
    ((transformFREDData (-360) [⟨"2023-01-01", "100.5"⟩] none).map ChartDataPoint.date ≠
      ["Jan 2023"]) := by
  refine ⟨by decide, by decide⟩
